import Mathlib

/-!
Verification of the larcorealg geometry core (`GeometryCore.cxx` together
with the `PlaneGeo.h` declarations) against its natural-language
specification.  C++ `double` arithmetic is embedded as exact rational
arithmetic; the mathematical-library sine is an explicit function
parameter; fallible operations return `Except`; the `+infinity` sentinel
used for failed wire intersections is a dedicated constructor of a small
floating-value type.
-/

namespace LArGeo

instance {ε α : Type} [DecidableEq ε] [DecidableEq α] : DecidableEq (Except ε α)
  | Except.error a, Except.error b =>
    if h : a = b then isTrue (by rw [h]) else isFalse (by intro hc; cases hc; exact h rfl)
  | Except.error _, Except.ok _ => isFalse (by intro hc; cases hc)
  | Except.ok _, Except.error _ => isFalse (by intro hc; cases hc)
  | Except.ok a, Except.ok b =>
    if h : a = b then isTrue (by rw [h]) else isFalse (by intro hc; cases hc; exact h rfl)

/-- A 3D vector/point with rational coordinates (embedding of
`geo::Point_t` / `geo::Vector_t`). -/
structure Vec3 where
  x : ℚ
  y : ℚ
  z : ℚ
  deriving DecidableEq, Repr

namespace Vec3

def add (a b : Vec3) : Vec3 := ⟨a.x + b.x, a.y + b.y, a.z + b.z⟩

def sub (a b : Vec3) : Vec3 := ⟨a.x - b.x, a.y - b.y, a.z - b.z⟩

def smul (q : ℚ) (a : Vec3) : Vec3 := ⟨q * a.x, q * a.y, q * a.z⟩

/-- Dot product (`geo::vect::dot`). -/
def dot (a b : Vec3) : ℚ := a.x * b.x + a.y * b.y + a.z * b.z

/-- Cross product (`geo::vect::cross`). -/
def cross (a b : Vec3) : Vec3 :=
  ⟨a.y * b.z - a.z * b.y, a.z * b.x - a.x * b.z, a.x * b.y - a.y * b.x⟩

end Vec3

/-- Modelled from the spec: `geo::Decomposer` (header
`larcorealg/Geometry/Decomposer.h` is not part of the inspected source;
only the `PlaneGeo` members delegating to it are).  Spec §4.1: an oriented
2D frame is an origin point `R` with orthonormal axes `A` (main), `B`
(secondary) and normal `N = A×B`. -/
structure Decomposer where
  refPoint : Vec3
  mainDir : Vec3
  secondaryDir : Vec3
  normalDir : Vec3
  deriving DecidableEq, Repr

/-- A decomposed point/vector: normal component and the two in-plane
projection components (embedding of `DecomposedVector_t`). -/
structure DecomposedVector where
  distance : ℚ
  projMain : ℚ
  projSecondary : ℚ
  deriving DecidableEq, Repr

namespace Decomposer

/-- Modelled from the spec (§4.1): decompose `P` into
`d = (P−R)·N` and `(a,b) = ((P−R)·A, (P−R)·B)`. -/
def DecomposePoint (f : Decomposer) (P : Vec3) : DecomposedVector :=
  ⟨(P.sub f.refPoint).dot f.normalDir,
   (P.sub f.refPoint).dot f.mainDir,
   (P.sub f.refPoint).dot f.secondaryDir⟩

/-- Modelled from the spec (§4.1): compose the inverse
`P = R + d·N + a·A + b·B`. -/
def ComposePoint (f : Decomposer) (d : DecomposedVector) : Vec3 :=
  ((f.refPoint.add (Vec3.smul d.distance f.normalDir)).add
    (Vec3.smul d.projMain f.mainDir)).add (Vec3.smul d.projSecondary f.secondaryDir)

/-- `PointNormalComponent`: normal component of `P − R`. -/
def PointNormalComponent (f : Decomposer) (P : Vec3) : ℚ :=
  (P.sub f.refPoint).dot f.normalDir

/-- `PointSecondaryComponent`: secondary component of `P − R`. -/
def PointSecondaryComponent (f : Decomposer) (P : Vec3) : ℚ :=
  (P.sub f.refPoint).dot f.secondaryDir

/-- The frame is orthonormal with `N = A×B` (the precondition of spec
§4.1, guaranteed for frames built by §4.2). -/
def IsOrthonormalFrame (f : Decomposer) : Prop :=
  f.mainDir.dot f.mainDir = 1 ∧ f.secondaryDir.dot f.secondaryDir = 1 ∧
    f.mainDir.dot f.secondaryDir = 0 ∧ f.normalDir = f.mainDir.cross f.secondaryDir

instance (f : Decomposer) : Decidable f.IsOrthonormalFrame := by
  unfold IsOrthonormalFrame; infer_instance

end Decomposer

/-- Embedding of `geo::PlaneGeo` (the members used by the claims):
the wire-frame decomposer `fDecompWire`, the width/depth frame decomposer
`fDecompFrame`, the wire pitch, and the sequence of wire centers. -/
structure PlaneGeo where
  fDecompWire : Decomposer
  fDecompFrame : Decomposer
  fWirePitch : ℚ
  wireCenters : List Vec3
  deriving DecidableEq, Repr

namespace PlaneGeo

/-- `PlaneGeo::Nwires()`. -/
def Nwires (p : PlaneGeo) : ℕ := p.wireCenters.length

/-- `PlaneGeo::WirePitch()`. -/
def WirePitch (p : PlaneGeo) : ℚ := p.fWirePitch

/-- `PlaneGeo::DecomposePoint` (wire frame): delegates to
`fDecompWire.DecomposePoint(point)`. -/
def DecomposePoint (p : PlaneGeo) (point : Vec3) : DecomposedVector :=
  p.fDecompWire.DecomposePoint point

/-- `PlaneGeo::ComposePoint(WireDecomposedVector_t)`: delegates to
`fDecompWire.ComposePoint(decomp)`. -/
def ComposePoint (p : PlaneGeo) (decomp : DecomposedVector) : Vec3 :=
  p.fDecompWire.ComposePoint decomp

/-- `PlaneGeo::DecomposePointWidthDepth`: delegates to
`fDecompFrame.DecomposePoint(point)`. -/
def DecomposePointWidthDepth (p : PlaneGeo) (point : Vec3) : DecomposedVector :=
  p.fDecompFrame.DecomposePoint point

/-- `PlaneGeo::ComposePoint(WDDecomposedVector_t)`: delegates to
`fDecompFrame.ComposePoint(decomp)`. -/
def ComposePointWidthDepth (p : PlaneGeo) (decomp : DecomposedVector) : Vec3 :=
  p.fDecompFrame.ComposePoint decomp

/-- `PlaneGeo::PlaneCoordinate(point)`:
`fDecompWire.PointSecondaryComponent(point)`. -/
def PlaneCoordinate (p : PlaneGeo) (point : Vec3) : ℚ :=
  p.fDecompWire.PointSecondaryComponent point

/-- `PlaneGeo::WireCoordinate(point)`: `PlaneCoordinate(point) / WirePitch()`. -/
def WireCoordinate (p : PlaneGeo) (point : Vec3) : ℚ :=
  p.PlaneCoordinate point / p.WirePitch

/-- `PlaneGeo::DistanceFromPlane(point)`:
`fDecompWire.PointNormalComponent(point)`. -/
def DistanceFromPlane (p : PlaneGeo) (point : Vec3) : ℚ :=
  p.fDecompWire.PointNormalComponent point

/-- Modelled from the spec (§4.2; the plane-construction code that places
the wires is not part of the inspected source): the wire frame reference
point is the center of wire 0 and the plane coordinate "increases by
exactly one wire pitch per wire index", i.e. wire `i`'s center has plane
coordinate `i · pitch`. -/
def WellPlacedWires (p : PlaneGeo) : Prop :=
  ∀ i : Fin p.wireCenters.length,
    p.PlaneCoordinate (p.wireCenters.get i) = (i : ℕ) * p.fWirePitch

end PlaneGeo

/-! ## Third-plane slope inference (`GeometryCore.cxx` lines 1378-1422) -/

/-- `GeometryCore::ComputeThirdPlaneSlope(angle1, slope1, angle2, slope2,
angle3)`.  The mathematical-library sine (`std::sin`) is passed as the
explicit parameter `sine`. -/
def ComputeThirdPlaneSlope (sine : ℚ → ℚ)
    (angle1 slope1 angle2 slope2 angle3 : ℚ) : ℚ :=
  -- Can't resolve very small slopes
  if |slope1| < 1/1000 ∧ |slope2| < 1/1000 then 1/1000
  else
    let slope3 : ℚ :=
      if 1/1000 < |slope1| ∧ 1/1000 < |slope2| then
        ((1 / slope1) * sine (angle3 - angle2) -
          (1 / slope2) * sine (angle3 - angle1)) / sine (angle1 - angle2)
      else 1/1000
    if slope3 ≠ 0 then 1 / slope3 else 999

/-- `GeometryCore::ComputeThirdPlane_dTdW`: rescale the slopes by the wire
pitches, apply `ComputeThirdPlaneSlope`, rescale by the target pitch. -/
def ComputeThirdPlane_dTdW (sine : ℚ → ℚ)
    (angle1 pitch1 dTdW1 angle2 pitch2 dTdW2 angle_target pitch_target : ℚ) : ℚ :=
  pitch_target *
    ComputeThirdPlaneSlope sine angle1 (dTdW1 / pitch1) angle2 (dTdW2 / pitch2) angle_target

/-! ## Wire endpoint normalization (`GeometryCore.cxx` lines 1112-1135) -/

/-- The endpoint-ordering normalization performed by
`GeometryCore::WireEndPoints(WireID, double*, double*)` on the segment
returned by the `Segment_t` overload: swap so that the end has the higher
`z`, then swap again if the wire is near vertical (`|Δz| < 0.01`) and the
end has the lower `y`. -/
def WireEndPoints (xyzStart xyzEnd : Vec3) : Vec3 × Vec3 :=
  let p1 : Vec3 × Vec3 :=
    if xyzEnd.z < xyzStart.z then (xyzEnd, xyzStart) else (xyzStart, xyzEnd)
  if p1.2.y < p1.1.y ∧ |p1.2.z - p1.1.z| < 1/100 then (p1.2, p1.1) else p1

/-! ## Identifier types (`larcoreobj` `geo_types.h`; spec §3) -/

/-- `geo::CryostatID`: a cryostat index plus an explicit validity flag.
Comparisons between identifiers are over the index chain (spec §3); the
validity flag is carried alongside. -/
structure CryostatID where
  isValid : Bool
  Cryostat : ℕ
  deriving DecidableEq, Repr

/-- `geo::TPCID`. -/
structure TPCID where
  isValid : Bool
  Cryostat : ℕ
  TPC : ℕ
  deriving DecidableEq, Repr

/-- `geo::PlaneID`. -/
structure PlaneID where
  isValid : Bool
  Cryostat : ℕ
  TPC : ℕ
  Plane : ℕ
  deriving DecidableEq, Repr

/-- `geo::WireID`. -/
structure WireID where
  isValid : Bool
  Cryostat : ℕ
  TPC : ℕ
  Plane : ℕ
  Wire : ℕ
  deriving DecidableEq, Repr

def TPCID.markInvalid (t : TPCID) : TPCID := { t with isValid := false }

def PlaneID.markInvalid (p : PlaneID) : PlaneID := { p with isValid := false }

def PlaneID.asTPCID (p : PlaneID) : TPCID := ⟨p.isValid, p.Cryostat, p.TPC⟩

def WireID.asTPCID (w : WireID) : TPCID := ⟨w.isValid, w.Cryostat, w.TPC⟩

def WireID.planeID (w : WireID) : PlaneID := ⟨w.isValid, w.Cryostat, w.TPC, w.Plane⟩

/-- Identifier equality as used by `operator==` on `geo::TPCID`: the index
chain is compared, the validity flag is not. -/
def TPCID.sameIdx (a b : TPCID) : Bool := a.Cryostat == b.Cryostat && a.TPC == b.TPC

/-- Identifier equality as used by `operator==` on `geo::PlaneID`:
index-chain comparison. -/
def PlaneID.sameIdx (a b : PlaneID) : Bool :=
  a.Cryostat == b.Cryostat && a.TPC == b.TPC && a.Plane == b.Plane

/-! ## Geometry containment model (spec §3; the `CryostatGeo` / `TPCGeo`
container classes are external to the inspected source, so the containment
data is modelled as plain nested lists). -/

/-- Data of one wire plane as seen from `GeometryCore`: its number of
wires. -/
structure PlaneData where
  nwires : ℕ
  deriving DecidableEq, Repr

/-- Data of one TPC (drift volume): its planes. -/
structure TPCData where
  planes : List PlaneData
  deriving DecidableEq, Repr

/-- Data of one cryostat: its TPCs and its number of optical detectors. -/
structure CryostatData where
  tpcs : List TPCData
  nOpDet : ℕ
  deriving DecidableEq, Repr

/-- The built geometry: the ordered cryostats. -/
structure Geometry where
  cryostats : List CryostatData
  deriving DecidableEq, Repr

namespace Geometry

/-- `GeometryCore::Ncryostats()`. -/
def Ncryostats (g : Geometry) : ℕ := g.cryostats.length

/-- `GeometryCore::CryostatPtr(id)`: the cryostat if the index is in
range, else null. -/
def CryostatPtr (g : Geometry) (id : CryostatID) : Option CryostatData :=
  g.cryostats.get? id.Cryostat

/-- `GeometryCore::TPCPtr(id)`. -/
def TPCPtr (g : Geometry) (id : TPCID) : Option TPCData :=
  (g.cryostats.get? id.Cryostat).bind fun c => c.tpcs.get? id.TPC

/-- `GeometryCore::PlanePtr(id)`. -/
def PlanePtr (g : Geometry) (id : PlaneID) : Option PlaneData :=
  (g.TPCPtr ⟨id.isValid, id.Cryostat, id.TPC⟩).bind fun t => t.planes.get? id.Plane

/-- `CryostatGeo::NTPC()`. -/
def NTPCOf (c : CryostatData) : ℕ := c.tpcs.length

/-- `CryostatGeo::MaxPlanes()`: the largest number of planes among the
TPCs of the cryostat. -/
def MaxPlanesOf (c : CryostatData) : ℕ :=
  (c.tpcs.map fun t => t.planes.length).foldr max 0

/-- `GeometryCore::Nplanes(tpcid)` as a partial lookup: the number of
planes of the TPC, if it exists. -/
def NplanesOf (g : Geometry) (id : TPCID) : Option ℕ :=
  (g.TPCPtr id).map fun t => t.planes.length

/-- `GeometryCore::HasWire(wireid)`: the full chain exists and the wire
index is within the plane's wire count. -/
def HasWire (g : Geometry) (wid : WireID) : Bool :=
  match g.PlanePtr wid.planeID with
  | some pl => wid.Wire < pl.nwires
  | none => false

end Geometry

/-! ## Two-wire intersection (`GeometryCore.cxx` lines 1184-1234, 1620-1645) -/

/-- A `double` coordinate of an intersection result: either a finite value
or the `+infinity` sentinel (`std::numeric_limits<double>::infinity()`). -/
inductive Fl where
  | fin (q : ℚ)
  | inf
  deriving DecidableEq, Repr

/-- `geo::WireIDIntersection`: the `(y, z)` coordinates of the candidate
intersection and the TPC index (`none` embeds `TPCID::InvalidID`). -/
structure WireIDIntersection where
  y : Fl
  z : Fl
  TPC : Option ℕ
  deriving DecidableEq, Repr

/-- `GeometryCore::WireIDIntersectionCheck(wid1, wid2)`: both wires on the
same TPC, on different planes, and both wire indices in range. -/
def WireIDIntersectionCheck (g : Geometry) (wid1 wid2 : WireID) : Bool :=
  if ¬ (wid1.asTPCID.sameIdx wid2.asTPCID) then false
  else if wid1.Plane == wid2.Plane then false
  else if ¬ g.HasWire wid1 then false
  else if ¬ g.HasWire wid2 then false
  else true

/-- `GeometryCore::WireIDsIntersect(wid1, wid2, widIntersect)`.  The parts
external to the inspected source are passed as parameters: `endpoints`
stands for the `Segment_t` overload of `WireEndPoints`,
`intersectLines` for `geo::IntersectLines` (`none` embeds a `false`
return, i.e. no line crossing) and `withinSegments` for
`lar::util::PointWithinSegments`.  The result pairs the returned `bool`
with the output `WireIDIntersection`. -/
def WireIDsIntersect
    (endpoints : WireID → Vec3 × Vec3)
    (intersectLines : Vec3 × Vec3 → Vec3 × Vec3 → Option (ℚ × ℚ))
    (withinSegments : Vec3 × Vec3 → Vec3 × Vec3 → ℚ × ℚ → Bool)
    (g : Geometry) (wid1 wid2 : WireID) : Bool × WireIDIntersection :=
  if ¬ WireIDIntersectionCheck g wid1 wid2 then
    (false, ⟨Fl.inf, Fl.inf, none⟩)
  else
    let w1 := endpoints wid1
    let w2 := endpoints wid2
    match intersectLines w1 w2 with
    | none => (false, ⟨Fl.inf, Fl.inf, none⟩)
    | some yz =>
      let within := withinSegments w1 w2 yz
      (within, ⟨Fl.fin yz.1, Fl.fin yz.2, if within then some wid1.TPC else none⟩)

/-! ## Third plane selection (`GeometryCore.cxx` lines 1274-1300) -/

/-- The scan loop of `GeometryCore::ThirdPlane`: walk the plane indices,
skipping the two input plane numbers; record the first remaining index in
`target` (initially the plane count `n`), and throw if a second remaining
index is found. -/
def ThirdPlaneScan (p1 p2 n : ℕ) : ℕ → List ℕ → Except String ℕ
  | target, [] => Except.ok target
  | target, i :: rest =>
    if i = p1 ∨ i = p2 then ThirdPlaneScan p1 p2 n target rest
    else if target ≠ n then Except.error "ThirdPlane() found too many planes"
    else ThirdPlaneScan p1 p2 n i rest

/-- `GeometryCore::ThirdPlane(pid1, pid2)`: requires the TPC of `pid1` to
have exactly 3 planes, then returns the plane of that TPC that is neither
`pid1.Plane` nor `pid2.Plane`.  `Except.error` embeds the thrown
`cet::exception`s (including the one from the `Nplanes(pid1)` lookup on a
non-existing TPC). -/
def ThirdPlane (g : Geometry) (pid1 pid2 : PlaneID) : Except String PlaneID :=
  match g.NplanesOf pid1.asTPCID with
  | none => Except.error "TPC not found"
  | some nPlanes =>
    if nPlanes ≠ 3 then Except.error "ThirdPlane() supports only TPCs with 3 planes"
    else
      match ThirdPlaneScan pid1.Plane pid2.Plane nPlanes nPlanes (List.range nPlanes) with
      | Except.error e => Except.error e
      | Except.ok target =>
        if target = nPlanes then Except.error "ThirdPlane() can't find a plane"
        else Except.ok ⟨pid1.isValid, pid1.Cryostat, pid1.TPC, target⟩

/-! ## Begin/end plane IDs (`GeometryCore.cxx` lines 381-388, 713-726) -/

/-- Modelled from the spec (§4.5; the `GetBeginTPCID` header accessor is
not part of the inspected source): the begin TPC ID of a cryostat is the
TPC with index 0, copying the cryostat part. -/
def GetBeginTPCID (id : CryostatID) : TPCID := ⟨id.isValid, id.Cryostat, 0⟩

/-- Modelled from the spec (§4.5; header accessor not in the inspected
source): the begin plane ID of a cryostat, `{GetBeginTPCID(id), 0}`. -/
def GetBeginPlaneIDCryo (id : CryostatID) : PlaneID := ⟨id.isValid, id.Cryostat, 0, 0⟩

/-- Modelled from the spec (§4.5; header accessor not in the inspected
source): the begin plane ID of a TPC, `{id, 0}`. -/
def GetBeginPlaneIDTPC (id : TPCID) : PlaneID := ⟨id.isValid, id.Cryostat, id.TPC, 0⟩

/-- Modelled from the spec (§4.5, "`{volume.next, 0}`"; the `GetNextID`
header accessor is not part of the inspected source): the ID of the next
TPC. -/
def GetNextID (id : TPCID) : TPCID := ⟨id.isValid, id.Cryostat, id.TPC + 1⟩

/-- `GeometryCore::GetEndTPCID(CryostatID)`: `{id.Cryostat + 1, 0}` if the
cryostat exists and has at least one TPC, otherwise the begin TPC ID
marked invalid.  (A `TPCID{c, t}` built from bare indices is valid.) -/
def GetEndTPCID (g : Geometry) (id : CryostatID) : TPCID :=
  match g.CryostatPtr id with
  | some cryo =>
    if 0 < Geometry.NTPCOf cryo then ⟨true, id.Cryostat + 1, 0⟩
    else (GetBeginTPCID id).markInvalid
  | none => (GetBeginTPCID id).markInvalid

/-- `GeometryCore::GetEndPlaneID(CryostatID)` (lines 713-717):
`{GetEndTPCID(id), 0}` if the cryostat exists and `MaxPlanes() > 0`,
otherwise `GetBeginPlaneID(id)` (note: without `markInvalid`). -/
def GetEndPlaneIDCryo (g : Geometry) (id : CryostatID) : PlaneID :=
  match g.CryostatPtr id with
  | some cryo =>
    if 0 < Geometry.MaxPlanesOf cryo then
      let t := GetEndTPCID g id
      ⟨t.isValid, t.Cryostat, t.TPC, 0⟩
    else GetBeginPlaneIDCryo id
  | none => GetBeginPlaneIDCryo id

/-- `GeometryCore::GetEndPlaneID(TPCID)` (lines 720-726):
`{GetNextID(id), 0}` if the TPC exists and has at least one plane,
otherwise the begin plane ID marked invalid. -/
def GetEndPlaneIDTPC (g : Geometry) (id : TPCID) : PlaneID :=
  match g.TPCPtr id with
  | some tpc =>
    if 0 < tpc.planes.length then
      let t := GetNextID id
      ⟨t.isValid, t.Cryostat, t.TPC, 0⟩
    else (GetBeginPlaneIDTPC id).markInvalid
  | none => (GetBeginPlaneIDTPC id).markInvalid

/-! ## Optical detector numbering (`GeometryCore.cxx` lines 1545-1607) -/

/-- `CryostatGeo::NOpDet()` of the cryostat with the given index (0 when
the index is out of range; only used below under an in-range guard). -/
def nOpDetAt (g : Geometry) (c : ℕ) : ℕ :=
  match g.cryostats.get? c with
  | some cr => cr.nOpDet
  | none => 0

/-- The lazily built static `LowestID` table of
`GeometryCore::OpDetFromCryo`, as a function of the cryostat argument
`cfirst` of the call that built it: every increment of the building loop
reads `Cryostat(cid).NOpDet()` with `cid` the queried cryostat (line
1562), so `LowestID[k] = k * NOpDet(cfirst)`.  `Except.error` embeds the
exception thrown by `Cryostat(cid)` when the building loop runs with an
out-of-range `cfirst`. -/
def OpDetFromCryoTable (g : Geometry) (cfirst : ℕ) : Except String (ℕ → ℕ) :=
  if g.Ncryostats = 0 then Except.ok fun _ => 0
  else
    match g.cryostats.get? cfirst with
    | some cr => Except.ok fun k => k * cr.nOpDet
    | none => Except.error "Cryostat"

/-- `GeometryCore::OpDetFromCryo(o, c)`: look up `LowestID[c] + o` if
`c < NCryo` and `o < Cryostat(cid).NOpDet()`, else throw.  The static
table state is made explicit through `cfirst`, the cryostat argument of
the first call (the call that populated the table). -/
def OpDetFromCryo (g : Geometry) (cfirst : ℕ) (o c : ℕ) : Except String ℕ :=
  match OpDetFromCryoTable g cfirst with
  | Except.error e => Except.error e
  | Except.ok lowestID =>
    if c < g.Ncryostats ∧ o < nOpDetAt g c then Except.ok (lowestID c + o)
    else Except.error "OpDetCryoToOpID Error"

/-- The lazily built static `LowestID` table of
`GeometryCore::OpDetGeoFromOpDet` (line 1594): the true prefix sums,
`LowestID[k] = Σ_{j<k} NOpDet(j)`. -/
def lowestOpDetID (g : Geometry) : ℕ → ℕ
  | 0 => 0
  | k + 1 => lowestOpDetID g k + nOpDetAt g k

/-- The search loop of `GeometryCore::OpDetGeoFromOpDet`: find the first
cryostat index `i` with `LowestID[i] ≤ OpDet < LowestID[i+1]`. -/
def FindOpDetBucket (g : Geometry) (OpDet : ℕ) : List ℕ → Except String (ℕ × ℕ)
  | [] => Except.error "OpID To OpDetCryo error"
  | i :: rest =>
    if lowestOpDetID g i ≤ OpDet ∧ OpDet < lowestOpDetID g (i + 1) then
      Except.ok (i, OpDet - lowestOpDetID g i)
    else FindOpDetBucket g OpDet rest

/-- `GeometryCore::OpDetGeoFromOpDet(OpDet)`: the result
`Cryostat(CryostatID(c)).OpDet(o)` is embedded as the pair `(c, o)` of the
cryostat index and the in-cryostat optical detector index. -/
def OpDetGeoFromOpDet (g : Geometry) (OpDet : ℕ) : Except String (ℕ × ℕ) :=
  FindOpDetBucket g OpDet (List.range g.Ncryostats)

/-! ## Nearest/closest wire (`PlaneGeo.h` lines 2164-2242, 3067-3080) -/

/-- `geo::PlaneGeo::ClosestWireID(wireNo)` (inline, line 3069):
`{ID(), std::min(wireNo, Nwires())}`.  The plane's `ID()` is passed
explicitly as `pid`. -/
def PlaneGeo.ClosestWireID (p : PlaneGeo) (pid : PlaneID) (wireNo : ℕ) : WireID :=
  ⟨pid.isValid, pid.Cryostat, pid.TPC, pid.Plane, min wireNo p.Nwires⟩

/-- Modelled from the spec: the body of `geo::PlaneGeo::NearestWireID` is
not part of the inspected source (only its declaration, lines 2164-2190).
Spec §4.2: "round `WireCoordinate(P)` to the nearest integer, clamp to
`[0, Nwires-1]`; if the clamped index is not within half a pitch of the
true projection, this is an out-of-range condition (signaled, not
silently clamped) carrying both the nominal and the corrected wire
index."  `Except.error` embeds the thrown `InvalidWireError`, carrying
the nominal (rounded, possibly negative) index and the corrected index. -/
def PlaneGeo.NearestWireID (p : PlaneGeo) (pid : PlaneID) (pos : Vec3) :
    Except (ℤ × ℕ) WireID :=
  let nominal : ℤ := round (p.WireCoordinate pos)
  if 0 ≤ nominal ∧ nominal < (p.Nwires : ℤ) then
    Except.ok ⟨pid.isValid, pid.Cryostat, pid.TPC, pid.Plane, nominal.toNat⟩
  else
    Except.error (nominal, if nominal < 0 then 0 else p.Nwires - 1)

/-! ## Theorems -/

/-- Helper: composing a decomposition in an orthonormal frame with
`N = A×B` reproduces the original point (spec §4.1 guarantee). -/
theorem Decomposer.composePoint_decomposePoint (f : Decomposer)
    (hf : f.IsOrthonormalFrame) (P : Vec3) :
    f.ComposePoint (f.DecomposePoint P) = P := by
  obtain ⟨h1, h2, h3, hn⟩ := hf
  obtain ⟨R, a, b, n⟩ := f
  simp only at hn h1 h2 h3
  subst hn
  obtain ⟨r1, r2, r3⟩ := R
  obtain ⟨a1, a2, a3⟩ := a
  obtain ⟨b1, b2, b3⟩ := b
  obtain ⟨v1, v2, v3⟩ := P
  simp only [Vec3.dot, Vec3.cross, Vec3.smul, Vec3.add, Vec3.sub,
    DecomposePoint, ComposePoint] at *
  rw [Vec3.mk.injEq]
  refine ⟨?_, ?_, ?_⟩ <;>
    first
    | linear_combination
        ((v1-r1) * (b1*b1+b2*b2+b3*b3) - ((v1-r1)*b1+(v2-r2)*b2+(v3-r3)*b3) * b1) * h1 +
        ((v1-r1) - ((v1-r1)*a1+(v2-r2)*a2+(v3-r3)*a3)*a1) * h2 +
        (((v1-r1)*b1+(v2-r2)*b2+(v3-r3)*b3)*a1 + ((v1-r1)*a1+(v2-r2)*a2+(v3-r3)*a3)*b1 -
          (v1-r1)*(a1*b1+a2*b2+a3*b3)) * h3
    | linear_combination
        ((v2-r2) * (b1*b1+b2*b2+b3*b3) - ((v1-r1)*b1+(v2-r2)*b2+(v3-r3)*b3) * b2) * h1 +
        ((v2-r2) - ((v1-r1)*a1+(v2-r2)*a2+(v3-r3)*a3)*a2) * h2 +
        (((v1-r1)*b1+(v2-r2)*b2+(v3-r3)*b3)*a2 + ((v1-r1)*a1+(v2-r2)*a2+(v3-r3)*a3)*b2 -
          (v2-r2)*(a1*b1+a2*b2+a3*b3)) * h3
    | linear_combination
        ((v3-r3) * (b1*b1+b2*b2+b3*b3) - ((v1-r1)*b1+(v2-r2)*b2+(v3-r3)*b3) * b3) * h1 +
        ((v3-r3) - ((v1-r1)*a1+(v2-r2)*a2+(v3-r3)*a3)*a3) * h2 +
        (((v1-r1)*b1+(v2-r2)*b2+(v3-r3)*b3)*a3 + ((v1-r1)*a1+(v2-r2)*a2+(v3-r3)*a3)*b3 -
          (v3-r3)*(a1*b1+a2*b2+a3*b3)) * h3

/-- C2: on any constructed plane (both frames orthonormal with
`N = A×B`, as guaranteed by the construction of §4.2), composing the
decomposition of any 3D point `P` reproduces `P`, both for the wire-frame
decomposition (`ComposePoint` after `DecomposePoint`) and for the
width/depth-frame decomposition (`ComposePoint` after
`DecomposePointWidthDepth`). -/
theorem PlaneGeo.composePoint_decomposePoint_roundtrip (p : PlaneGeo) (P : Vec3)
    (hw : p.fDecompWire.IsOrthonormalFrame) (hf : p.fDecompFrame.IsOrthonormalFrame) :
    p.ComposePoint (p.DecomposePoint P) = P ∧
    p.ComposePointWidthDepth (p.DecomposePointWidthDepth P) = P :=
  ⟨Decomposer.composePoint_decomposePoint _ hw P,
   Decomposer.composePoint_decomposePoint _ hf P⟩

/-- The canonical axis-aligned orthonormal frame (used as concrete
witness input). -/
def axisFrame : Decomposer :=
  ⟨⟨0, 0, 0⟩, ⟨1, 0, 0⟩, ⟨0, 1, 0⟩, ⟨0, 0, 1⟩⟩

/-- A concrete plane: axis-aligned frames, wire pitch 2, three wires. -/
def pitchTwoPlane : PlaneGeo :=
  ⟨axisFrame, axisFrame, 2, [⟨0, 0, 0⟩, ⟨0, 2, 0⟩, ⟨0, 4, 0⟩]⟩

/-- Witness for C2 at a concrete plane and point. -/
theorem PlaneGeo.composePoint_decomposePoint_roundtrip_witness :
    pitchTwoPlane.ComposePoint (pitchTwoPlane.DecomposePoint ⟨5, -7, 3⟩) = ⟨5, -7, 3⟩ ∧
    pitchTwoPlane.ComposePointWidthDepth
      (pitchTwoPlane.DecomposePointWidthDepth ⟨5, -7, 3⟩) = ⟨5, -7, 3⟩ :=
  PlaneGeo.composePoint_decomposePoint_roundtrip pitchTwoPlane ⟨5, -7, 3⟩
    (by norm_num [Decomposer.IsOrthonormalFrame, pitchTwoPlane, axisFrame,
      Vec3.dot, Vec3.cross])
    (by norm_num [Decomposer.IsOrthonormalFrame, pitchTwoPlane, axisFrame,
      Vec3.dot, Vec3.cross])

/-- C1: whenever both input slopes exceed the 0.001 threshold in
magnitude, the returned `slope3` satisfies the trigonometric identity
`1/slope3 = [(1/slope1)·sin(angle3−angle2) − (1/slope2)·sin(angle3−angle1)]
/ sin(angle1−angle2)`, the sentinel 999 being substituted exactly when the
computed value is zero. -/
theorem ComputeThirdPlaneSlope_identity (sine : ℚ → ℚ)
    (angle1 slope1 angle2 slope2 angle3 : ℚ)
    (hs1 : 1/1000 < |slope1|) (hs2 : 1/1000 < |slope2|) :
    (((1 / slope1) * sine (angle3 - angle2) - (1 / slope2) * sine (angle3 - angle1)) /
        sine (angle1 - angle2) ≠ 0 →
      1 / ComputeThirdPlaneSlope sine angle1 slope1 angle2 slope2 angle3 =
        ((1 / slope1) * sine (angle3 - angle2) - (1 / slope2) * sine (angle3 - angle1)) /
          sine (angle1 - angle2)) ∧
    (((1 / slope1) * sine (angle3 - angle2) - (1 / slope2) * sine (angle3 - angle1)) /
        sine (angle1 - angle2) = 0 →
      ComputeThirdPlaneSlope sine angle1 slope1 angle2 slope2 angle3 = 999) := by
  have hno : ¬ (|slope1| < 1/1000 ∧ |slope2| < 1/1000) := by
    rintro ⟨h, -⟩; exact absurd hs1 (not_lt.mpr h.le)
  have hyes : 1/1000 < |slope1| ∧ 1/1000 < |slope2| := ⟨hs1, hs2⟩
  constructor
  · intro hraw
    simp only [ComputeThirdPlaneSlope, if_neg hno, if_pos hyes, if_pos hraw]
    exact one_div_one_div _
  · intro hraw
    simp only [ComputeThirdPlaneSlope, if_neg hno, if_pos hyes, hraw]
    simp

/-- Witness for C1 at concrete angles, slopes and sine. -/
theorem ComputeThirdPlaneSlope_identity_witness :
    (1/1000 : ℚ) < |(1 : ℚ)| ∧
    1 / ComputeThirdPlaneSlope (fun q => q) 0 1 1 1 2 =
      ((1 / (1:ℚ)) * ((2:ℚ) - 1) - (1 / (1:ℚ)) * ((2:ℚ) - 0)) / ((0:ℚ) - 1) :=
  ⟨by norm_num,
   (ComputeThirdPlaneSlope_identity (fun q => q) 0 1 1 1 2 (by norm_num) (by norm_num)).1
     (by norm_num)⟩

/-- C4: `ComputeThirdPlaneSlope` returns the 0.001 threshold directly when
both input slopes are below it in magnitude, and substitutes the 999
sentinel instead of dividing by zero when the computed `slope3` is exactly
zero. -/
theorem ComputeThirdPlaneSlope_edge_policy (sine : ℚ → ℚ)
    (angle1 slope1 angle2 slope2 angle3 : ℚ) :
    (|slope1| < 1/1000 → |slope2| < 1/1000 →
      ComputeThirdPlaneSlope sine angle1 slope1 angle2 slope2 angle3 = 1/1000) ∧
    (1/1000 < |slope1| → 1/1000 < |slope2| →
      ((1 / slope1) * sine (angle3 - angle2) - (1 / slope2) * sine (angle3 - angle1)) /
          sine (angle1 - angle2) = 0 →
      ComputeThirdPlaneSlope sine angle1 slope1 angle2 slope2 angle3 = 999) := by
  constructor
  · intro h1 h2
    simp only [ComputeThirdPlaneSlope, if_pos (And.intro h1 h2)]
  · intro h1 h2 hraw
    have hno : ¬ (|slope1| < 1/1000 ∧ |slope2| < 1/1000) := by
      rintro ⟨h, -⟩; exact absurd h1 (not_lt.mpr h.le)
    simp only [ComputeThirdPlaneSlope, if_neg hno, if_pos (And.intro h1 h2), hraw]
    simp

/-- Witness for C4: small slopes give back the threshold. -/
theorem ComputeThirdPlaneSlope_edge_policy_witness :
    |(0 : ℚ)| < 1/1000 ∧
    ComputeThirdPlaneSlope (fun q => q) 0 0 1 0 2 = 1/1000 :=
  ⟨by norm_num,
   (ComputeThirdPlaneSlope_edge_policy (fun q => q) 0 0 1 0 2).1 (by norm_num)
     (by norm_num)⟩

/-- C9: after `WireEndPoints` normalization the end point has
non-decreasing `z` relative to the start point (outside the near-vertical
tolerance band the `z` ordering holds outright), and for near-vertical
wires (`|Δz| < 0.01`) the end point has the higher `y`. -/
theorem WireEndPoints_ordering (xyzStart xyzEnd : Vec3) :
    ((WireEndPoints xyzStart xyzEnd).1.z ≤ (WireEndPoints xyzStart xyzEnd).2.z ∨
      |(WireEndPoints xyzStart xyzEnd).2.z - (WireEndPoints xyzStart xyzEnd).1.z| < 1/100) ∧
    (¬ |(WireEndPoints xyzStart xyzEnd).2.z - (WireEndPoints xyzStart xyzEnd).1.z| < 1/100 →
      (WireEndPoints xyzStart xyzEnd).1.z ≤ (WireEndPoints xyzStart xyzEnd).2.z) ∧
    (|(WireEndPoints xyzStart xyzEnd).2.z - (WireEndPoints xyzStart xyzEnd).1.z| < 1/100 →
      (WireEndPoints xyzStart xyzEnd).1.y ≤ (WireEndPoints xyzStart xyzEnd).2.y) := by
  unfold WireEndPoints
  by_cases hz : xyzEnd.z < xyzStart.z
  · rw [if_pos hz]
    dsimp only
    by_cases hy : xyzStart.y < xyzEnd.y ∧ |xyzStart.z - xyzEnd.z| < 1/100
    · rw [if_pos hy]
      dsimp only
      have habs : |xyzEnd.z - xyzStart.z| < 1/100 := by rw [abs_sub_comm]; exact hy.2
      exact ⟨Or.inr habs, fun hcon => absurd habs hcon, fun _ => hy.1.le⟩
    · rw [if_neg hy]
      dsimp only
      refine ⟨Or.inl hz.le, fun _ => hz.le, fun hsm => ?_⟩
      by_contra hyy
      exact hy ⟨lt_of_not_le hyy, hsm⟩
  · rw [if_neg hz]
    dsimp only
    by_cases hy : xyzEnd.y < xyzStart.y ∧ |xyzEnd.z - xyzStart.z| < 1/100
    · rw [if_pos hy]
      dsimp only
      have habs : |xyzStart.z - xyzEnd.z| < 1/100 := by rw [abs_sub_comm]; exact hy.2
      exact ⟨Or.inr habs, fun hcon => absurd habs hcon, fun _ => hy.1.le⟩
    · rw [if_neg hy]
      dsimp only
      refine ⟨Or.inl (le_of_not_lt hz), fun _ => le_of_not_lt hz, fun hsm => ?_⟩
      by_contra hyy
      exact hy ⟨lt_of_not_le hyy, hsm⟩

/-- Witness for C9 at a concrete (non-vertical) wire segment. -/
theorem WireEndPoints_ordering_witness :
    (WireEndPoints ⟨0, 0, 5⟩ ⟨0, 1, 0⟩).1.z ≤ (WireEndPoints ⟨0, 0, 5⟩ ⟨0, 1, 0⟩).2.z :=
  (WireEndPoints_ordering ⟨0, 0, 5⟩ ⟨0, 1, 0⟩).2.1
    (by norm_num [WireEndPoints])

/-- Helper: the intersection precondition check fails whenever the two
wires are on different TPCs, or on the same plane, or either wire index is
out of range. -/
theorem WireIDIntersectionCheck_eq_false (g : Geometry) (wid1 wid2 : WireID)
    (h : wid1.asTPCID.sameIdx wid2.asTPCID = false ∨
      wid1.planeID.sameIdx wid2.planeID = true ∨
      g.HasWire wid1 = false ∨ g.HasWire wid2 = false) :
    WireIDIntersectionCheck g wid1 wid2 = false := by
  unfold WireIDIntersectionCheck
  split_ifs with h1 h2 h3 h4 <;> try rfl
  exfalso
  rcases h with h | h | h | h
  · rw [h] at h1; exact Bool.false_ne_true h1
  · apply h2
    simp only [PlaneID.sameIdx, WireID.planeID, Bool.and_eq_true, beq_iff_eq] at h
    simp only [beq_iff_eq]
    exact h.2
  · rw [h] at h3; exact Bool.false_ne_true h3
  · rw [h] at h4; exact Bool.false_ne_true h4

/-- C3: whenever the two wire IDs are on different TPCs, or on the same
plane, or carry an out-of-range wire index, `WireIDsIntersect` returns a
non-intersecting result — `false` with both intersection coordinates set
to `+infinity` (and an invalid TPC) — rather than raising a hard error;
this holds regardless of the wire geometry and of the line-intersection
routine. -/
theorem WireIDsIntersect_precondition_failure
    (endpoints : WireID → Vec3 × Vec3)
    (intersectLines : Vec3 × Vec3 → Vec3 × Vec3 → Option (ℚ × ℚ))
    (withinSegments : Vec3 × Vec3 → Vec3 × Vec3 → ℚ × ℚ → Bool)
    (g : Geometry) (wid1 wid2 : WireID)
    (h : wid1.asTPCID.sameIdx wid2.asTPCID = false ∨
      wid1.planeID.sameIdx wid2.planeID = true ∨
      g.HasWire wid1 = false ∨ g.HasWire wid2 = false) :
    WireIDsIntersect endpoints intersectLines withinSegments g wid1 wid2 =
      (false, ⟨Fl.inf, Fl.inf, none⟩) := by
  have hc := WireIDIntersectionCheck_eq_false g wid1 wid2 h
  have hcond : ¬ (WireIDIntersectionCheck g wid1 wid2 = true) := by
    rw [hc]; exact Bool.false_ne_true
  unfold WireIDsIntersect
  rw [if_pos hcond]

/-- A concrete geometry with one cryostat, one TPC and two planes of two
wires each. -/
def gTwoPlanes : Geometry := ⟨[⟨[⟨[⟨2⟩, ⟨2⟩]⟩], 0⟩]⟩

/-- Witness for C3: two distinct wires of the same plane never
intersect. -/
theorem WireIDsIntersect_precondition_failure_witness :
    (WireID.planeID ⟨true, 0, 0, 0, 0⟩).sameIdx (WireID.planeID ⟨true, 0, 0, 0, 1⟩) = true ∧
    WireIDsIntersect (fun _ => (⟨0, 0, 0⟩, ⟨0, 0, 0⟩)) (fun _ _ => none) (fun _ _ _ => false)
      gTwoPlanes ⟨true, 0, 0, 0, 0⟩ ⟨true, 0, 0, 0, 1⟩ = (false, ⟨Fl.inf, Fl.inf, none⟩) :=
  ⟨by decide,
   WireIDsIntersect_precondition_failure _ _ _ gTwoPlanes ⟨true, 0, 0, 0, 0⟩ ⟨true, 0, 0, 0, 1⟩
     (Or.inr (Or.inl (by decide)))⟩

/-- Helper: with two equal skipped plane numbers, the three-plane scan
always finds "too many" remaining planes and throws. -/
theorem ThirdPlaneScan_same (p : ℕ) :
    ThirdPlaneScan p p 3 3 [0, 1, 2] = Except.error "ThirdPlane() found too many planes" := by
  match p with
  | 0 => rfl
  | 1 => rfl
  | 2 => rfl
  | (k + 3) =>
    have h0 : ¬ ((0 : ℕ) = k + 3 ∨ (0 : ℕ) = k + 3) := by omega
    have h1 : ¬ ((1 : ℕ) = k + 3 ∨ (1 : ℕ) = k + 3) := by omega
    simp only [ThirdPlaneScan, if_neg h0, if_neg h1]
    norm_num

/-- C5: `ThirdPlane(pid1, pid2)` throws unless the TPC of `pid1` has
exactly 3 planes and the two plane IDs are distinct (in particular a
4-plane TPC always throws); and when the preconditions hold — the two IDs
being distinct planes of that same 3-plane TPC — it returns the unique
remaining plane of the TPC. -/
theorem ThirdPlane_preconditions (g : Geometry) (pid1 pid2 : PlaneID) (n : ℕ)
    (hn : g.NplanesOf pid1.asTPCID = some n) :
    ((n ≠ 3 ∨ pid1 = pid2) → ∃ e, ThirdPlane g pid1 pid2 = Except.error e) ∧
    (n = 3 → pid1.isValid = pid2.isValid → pid1.Cryostat = pid2.Cryostat →
      pid1.TPC = pid2.TPC → pid1 ≠ pid2 → pid1.Plane < 3 → pid2.Plane < 3 →
      ThirdPlane g pid1 pid2 =
        Except.ok ⟨pid1.isValid, pid1.Cryostat, pid1.TPC, 3 - pid1.Plane - pid2.Plane⟩) := by
  constructor
  · intro h
    by_cases hn3 : n = 3
    · subst hn3
      rcases h with h | h
      · exact absurd rfl h
      · subst h
        refine ⟨"ThirdPlane() found too many planes", ?_⟩
        simp only [ThirdPlane, hn]
        rw [if_neg (by omega : ¬ (3 : ℕ) ≠ 3)]
        have hrange : List.range 3 = [0, 1, 2] := rfl
        rw [hrange, ThirdPlaneScan_same pid1.Plane]
    · refine ⟨"ThirdPlane() supports only TPCs with 3 planes", ?_⟩
      simp only [ThirdPlane, hn]
      rw [if_pos hn3]
  · intro hn3 hv hc ht hne hp1 hp2
    subst hn3
    have hpp : pid1.Plane ≠ pid2.Plane := by
      intro he
      apply hne
      obtain ⟨v1, c1, t1, q1⟩ := pid1
      obtain ⟨v2, c2, t2, q2⟩ := pid2
      simp only at hv hc ht he
      rw [hv, hc, ht, he]
    simp only [ThirdPlane, hn]
    rw [if_neg (by omega : ¬ (3 : ℕ) ≠ 3)]
    have hrange : List.range 3 = [0, 1, 2] := rfl
    rw [hrange]
    interval_cases h1 : pid1.Plane <;> interval_cases h2 : pid2.Plane <;>
      simp_all [ThirdPlaneScan]

/-- A concrete geometry with one cryostat, one TPC and three planes of one
wire each. -/
def gThreePlanes : Geometry := ⟨[⟨[⟨[⟨1⟩, ⟨1⟩, ⟨1⟩]⟩], 0⟩]⟩

/-- Witness for C5: planes 0 and 1 of the 3-plane TPC give plane 2. -/
theorem ThirdPlane_preconditions_witness :
    ThirdPlane gThreePlanes ⟨true, 0, 0, 0⟩ ⟨true, 0, 0, 1⟩ =
      Except.ok ⟨true, 0, 0, 3 - 0 - 1⟩ :=
  (ThirdPlane_preconditions gThreePlanes ⟨true, 0, 0, 0⟩ ⟨true, 0, 0, 1⟩ 3 (by decide)).2
    rfl rfl rfl rfl (by decide) (by decide) (by decide)

/-- The clamp of a nominal (rounded) wire number into `[0, Nwires-1]`. -/
def clampWireNumber (p : PlaneGeo) (n : ℤ) : ℕ :=
  if n < 0 then 0 else min n.toNat (p.Nwires - 1)

/-- C6: `NearestWireID` rounds `WireCoordinate(pos)` to the nearest
integer; a successful lookup returns exactly that rounded index (within
`[0, Nwires-1]`), and whenever the index clamped to `[0, Nwires-1]` is
farther than half a pitch from the true projection, the call signals the
out-of-range condition, carrying both the nominal (rounded) and the
corrected (clamped, closest existing) wire index. -/
theorem NearestWireID_round_clamp (p : PlaneGeo) (pid : PlaneID) (pos : Vec3)
    (hN : 0 < p.Nwires) (hpitch : 0 < p.fWirePitch) :
    (∀ wid, p.NearestWireID pid pos = Except.ok wid →
      (wid.Wire : ℤ) = round (p.WireCoordinate pos) ∧ wid.Wire < p.Nwires) ∧
    (p.fWirePitch / 2 <
        |p.PlaneCoordinate pos -
          (clampWireNumber p (round (p.WireCoordinate pos)) : ℚ) * p.fWirePitch| →
      p.NearestWireID pid pos =
        Except.error (round (p.WireCoordinate pos),
          clampWireNumber p (round (p.WireCoordinate pos)))) := by
  have hPC : p.PlaneCoordinate pos = p.WireCoordinate pos * p.fWirePitch := by
    unfold PlaneGeo.WireCoordinate PlaneGeo.WirePitch
    field_simp
  constructor
  · intro wid hok
    unfold PlaneGeo.NearestWireID at hok
    by_cases hin : 0 ≤ round (p.WireCoordinate pos) ∧
        round (p.WireCoordinate pos) < (p.Nwires : ℤ)
    · rw [if_pos hin] at hok
      cases hok
      dsimp only
      constructor
      · exact Int.toNat_of_nonneg hin.1
      · have := hin.2
        omega
    · rw [if_neg hin] at hok
      exact absurd hok (by simp)
  · intro hfar
    have hnotin : ¬ (0 ≤ round (p.WireCoordinate pos) ∧
        round (p.WireCoordinate pos) < (p.Nwires : ℤ)) := by
      intro hin
      have hclamp : (clampWireNumber p (round (p.WireCoordinate pos)) : ℚ) =
          ((round (p.WireCoordinate pos) : ℤ) : ℚ) := by
        unfold clampWireNumber
        rw [if_neg (not_lt.mpr hin.1)]
        have htn : (round (p.WireCoordinate pos)).toNat ≤ p.Nwires - 1 := by
          have := hin.2
          omega
        rw [min_eq_left htn]
        exact_mod_cast Int.toNat_of_nonneg hin.1
      rw [hPC, hclamp] at hfar
      have hround : |p.WireCoordinate pos - (round (p.WireCoordinate pos) : ℚ)| ≤ 1/2 :=
        abs_sub_round (p.WireCoordinate pos)
      have hmul : |p.WireCoordinate pos * p.fWirePitch -
          ((round (p.WireCoordinate pos) : ℤ) : ℚ) * p.fWirePitch| =
          |p.WireCoordinate pos - (round (p.WireCoordinate pos) : ℚ)| * p.fWirePitch := by
        rw [← sub_mul, abs_mul, abs_of_pos hpitch]
      rw [hmul] at hfar
      have hle : |p.WireCoordinate pos - (round (p.WireCoordinate pos) : ℚ)| * p.fWirePitch ≤
          (1/2) * p.fWirePitch :=
        mul_le_mul_of_nonneg_right hround hpitch.le
      have : p.fWirePitch / 2 < (1/2) * p.fWirePitch := lt_of_lt_of_le hfar hle
      linarith
    unfold PlaneGeo.NearestWireID
    rw [if_neg hnotin]
    congr 1
    rw [Prod.mk.injEq]
    refine ⟨rfl, ?_⟩
    unfold clampWireNumber
    by_cases hneg : round (p.WireCoordinate pos) < 0
    · rw [if_pos hneg, if_pos hneg]
    · rw [if_neg hneg, if_neg hneg]
      have hge : (p.Nwires : ℤ) ≤ round (p.WireCoordinate pos) := by
        rcases not_and_or.mp hnotin with h | h
        · exact absurd (not_lt.mp hneg) h
        · exact not_lt.mp h
      have : p.Nwires - 1 ≤ (round (p.WireCoordinate pos)).toNat := by omega
      rw [min_eq_right this]

/-- Witness for C6: a point ten pitches beyond the last wire of the
concrete three-wire plane is signalled out of range, with nominal index 10
and corrected index 2. -/
theorem NearestWireID_round_clamp_witness :
    pitchTwoPlane.fWirePitch / 2 <
      |pitchTwoPlane.PlaneCoordinate ⟨0, 20, 0⟩ -
        (clampWireNumber pitchTwoPlane
            (round (pitchTwoPlane.WireCoordinate ⟨0, 20, 0⟩)) : ℚ) *
          pitchTwoPlane.fWirePitch| ∧
    pitchTwoPlane.NearestWireID ⟨true, 0, 0, 0⟩ ⟨0, 20, 0⟩ =
      Except.error (round (pitchTwoPlane.WireCoordinate ⟨0, 20, 0⟩),
        clampWireNumber pitchTwoPlane (round (pitchTwoPlane.WireCoordinate ⟨0, 20, 0⟩))) := by
  have hcoord : pitchTwoPlane.WireCoordinate ⟨0, 20, 0⟩ = 10 := by
    norm_num [PlaneGeo.WireCoordinate, PlaneGeo.PlaneCoordinate, PlaneGeo.WirePitch,
      Decomposer.PointSecondaryComponent, pitchTwoPlane, axisFrame, Vec3.dot, Vec3.sub]
  have hfar : pitchTwoPlane.fWirePitch / 2 <
      |pitchTwoPlane.PlaneCoordinate ⟨0, 20, 0⟩ -
        (clampWireNumber pitchTwoPlane
            (round (pitchTwoPlane.WireCoordinate ⟨0, 20, 0⟩)) : ℚ) *
          pitchTwoPlane.fWirePitch| := by
    rw [hcoord]
    norm_num [PlaneGeo.PlaneCoordinate, Decomposer.PointSecondaryComponent,
      pitchTwoPlane, axisFrame, Vec3.dot, Vec3.sub, clampWireNumber, PlaneGeo.Nwires]
  exact ⟨hfar,
    (NearestWireID_round_clamp pitchTwoPlane ⟨true, 0, 0, 0⟩ ⟨0, 20, 0⟩
      (by norm_num [PlaneGeo.Nwires, pitchTwoPlane])
      (by norm_num [pitchTwoPlane])).2 hfar⟩

/-- Counterexample to C7 as stated: on the concrete well-placed plane
with pitch 2, wire 1's own center is `(0, 2, 0)`, where `WireCoordinate`
returns `1` (the wire index, in pitch units) and not
`(wire index) * pitch = 2`. -/
theorem WireCoordinate_center_counterexample :
    pitchTwoPlane.WellPlacedWires ∧
    pitchTwoPlane.wireCenters.get ⟨1, by norm_num [pitchTwoPlane]⟩ = ⟨0, 2, 0⟩ ∧
    pitchTwoPlane.WireCoordinate ⟨0, 2, 0⟩ = 1 ∧
    (1 : ℚ) ≠ 1 * pitchTwoPlane.WirePitch := by
  refine ⟨?_, rfl, ?_, ?_⟩
  · intro i
    fin_cases i <;>
      norm_num [PlaneGeo.PlaneCoordinate, Decomposer.PointSecondaryComponent,
        pitchTwoPlane, axisFrame, Vec3.dot, Vec3.sub]
  · norm_num [PlaneGeo.WireCoordinate, PlaneGeo.PlaneCoordinate, PlaneGeo.WirePitch,
      Decomposer.PointSecondaryComponent, pitchTwoPlane, axisFrame, Vec3.dot, Vec3.sub]
  · norm_num [PlaneGeo.WirePitch, pitchTwoPlane]

/-- C7 (amended): on every plane whose wires are placed per the spec
(plane coordinate of wire `i`'s center equal to `i * pitch`) and whose
pitch is non-zero, `WireCoordinate` at a wire's own center returns the
wire index (the coordinate in pitch units), and `PlaneCoordinate` — the
coordinate in centimeters — returns `(wire index) * pitch`; this covers
every wire, in particular the first and the last. -/
theorem WireCoordinate_center_amended (p : PlaneGeo) (hp : p.WellPlacedWires)
    (hpitch : p.fWirePitch ≠ 0) (i : Fin p.wireCenters.length) :
    p.WireCoordinate (p.wireCenters.get i) = (i : ℕ) ∧
    p.PlaneCoordinate (p.wireCenters.get i) = (i : ℕ) * p.WirePitch := by
  have h := hp i
  constructor
  · unfold PlaneGeo.WireCoordinate PlaneGeo.WirePitch
    rw [h]
    field_simp
  · exact h

/-- Witness for C7 (amended) at wire 1 of the concrete pitch-2 plane. -/
theorem WireCoordinate_center_amended_witness :
    pitchTwoPlane.WireCoordinate
        (pitchTwoPlane.wireCenters.get ⟨1, by norm_num [pitchTwoPlane]⟩) = 1 ∧
    pitchTwoPlane.PlaneCoordinate
        (pitchTwoPlane.wireCenters.get ⟨1, by norm_num [pitchTwoPlane]⟩) =
      1 * pitchTwoPlane.WirePitch :=
  WireCoordinate_center_amended pitchTwoPlane
    (fun i => by
      fin_cases i <;>
        norm_num [PlaneGeo.PlaneCoordinate, Decomposer.PointSecondaryComponent,
          pitchTwoPlane, axisFrame, Vec3.dot, Vec3.sub])
    (by norm_num [pitchTwoPlane]) ⟨1, by norm_num [pitchTwoPlane]⟩

/-- A concrete geometry with one cryostat holding no TPC (hence no
plane). -/
def gNoTPC : Geometry := ⟨[⟨[], 0⟩]⟩

/-- Counterexample to C8 as stated: for the existing cryostat 0 of
`gNoTPC`, which holds no plane, the cryostat-level `GetEndPlaneID` returns
the begin plane ID without marking it invalid (`isValid` stays `true`),
contradicting "returns the begin plane ID explicitly marked invalid ...
for both overloads". -/
theorem GetEndPlaneID_cryostat_not_invalidated :
    Geometry.CryostatPtr gNoTPC ⟨true, 0⟩ = some ⟨[], 0⟩ ∧
    Geometry.MaxPlanesOf ⟨[], 0⟩ = 0 ∧
    GetEndPlaneIDCryo gNoTPC ⟨true, 0⟩ = GetBeginPlaneIDCryo ⟨true, 0⟩ ∧
    (GetEndPlaneIDCryo gNoTPC ⟨true, 0⟩).isValid = true := by
  decide

/-- Helper: a cryostat with a plane has a TPC. -/
theorem NTPCOf_pos_of_MaxPlanesOf_pos (c : CryostatData)
    (h : 0 < Geometry.MaxPlanesOf c) : 0 < Geometry.NTPCOf c := by
  unfold Geometry.MaxPlanesOf at h
  unfold Geometry.NTPCOf
  cases htp : c.tpcs with
  | nil => rw [htp] at h; simp at h
  | cons t ts => simp [htp]

/-- C8 (amended): for every existing container, the end-plane-ID query
returns `{next container, 0}` when the container holds at least one
plane; otherwise it returns the begin plane ID, which the TPC-level
overload explicitly marks invalid while the cryostat-level overload
returns unchanged (still valid for a valid input ID). -/
theorem GetEndPlaneID_behavior (g : Geometry) (cid : CryostatID) (tid : TPCID)
    (cryo : CryostatData) (tpc : TPCData)
    (hc : g.CryostatPtr cid = some cryo) (ht : g.TPCPtr tid = some tpc) :
    (0 < Geometry.MaxPlanesOf cryo →
      GetEndPlaneIDCryo g cid = ⟨true, cid.Cryostat + 1, 0, 0⟩) ∧
    (Geometry.MaxPlanesOf cryo = 0 →
      GetEndPlaneIDCryo g cid = GetBeginPlaneIDCryo cid ∧
      (GetEndPlaneIDCryo g cid).isValid = cid.isValid) ∧
    (0 < tpc.planes.length →
      GetEndPlaneIDTPC g tid = ⟨tid.isValid, tid.Cryostat, tid.TPC + 1, 0⟩) ∧
    (tpc.planes.length = 0 →
      GetEndPlaneIDTPC g tid = (GetBeginPlaneIDTPC tid).markInvalid ∧
      (GetEndPlaneIDTPC g tid).isValid = false) := by
  refine ⟨fun h => ?_, fun h => ?_, fun h => ?_, fun h => ?_⟩
  · unfold GetEndPlaneIDCryo GetEndTPCID
    rw [hc]
    dsimp only
    rw [if_pos h, if_pos (NTPCOf_pos_of_MaxPlanesOf_pos cryo h)]
  · unfold GetEndPlaneIDCryo
    rw [hc]
    dsimp only
    rw [if_neg (by omega : ¬ 0 < Geometry.MaxPlanesOf cryo)]
    exact ⟨rfl, rfl⟩
  · unfold GetEndPlaneIDTPC GetNextID
    rw [ht]
    dsimp only
    rw [if_pos h]
  · unfold GetEndPlaneIDTPC
    rw [ht]
    dsimp only
    rw [if_neg (by omega : ¬ 0 < tpc.planes.length)]
    exact ⟨rfl, rfl⟩

/-- A concrete geometry with one cryostat, one TPC, one plane of one
wire. -/
def gOnePlane : Geometry := ⟨[⟨[⟨[⟨1⟩]⟩], 0⟩]⟩

/-- Witness for C8 (amended): both overloads evaluated on `gOnePlane`. -/
theorem GetEndPlaneID_behavior_witness :
    GetEndPlaneIDCryo gOnePlane ⟨true, 0⟩ = ⟨true, 1, 0, 0⟩ ∧
    GetEndPlaneIDTPC gOnePlane ⟨true, 0, 0⟩ = ⟨true, 0, 1, 0⟩ :=
  ⟨(GetEndPlaneID_behavior gOnePlane ⟨true, 0⟩ ⟨true, 0, 0⟩ ⟨[⟨[⟨1⟩]⟩], 0⟩ ⟨[⟨1⟩]⟩
      (by decide) (by decide)).1 (by decide),
   (GetEndPlaneID_behavior gOnePlane ⟨true, 0⟩ ⟨true, 0, 0⟩ ⟨[⟨[⟨1⟩]⟩], 0⟩ ⟨[⟨1⟩]⟩
      (by decide) (by decide)).2.2.1 (by decide)⟩

/-- A concrete geometry with two cryostats holding 2 and 5 optical
detectors respectively. -/
def gOpDetBug : Geometry := ⟨[⟨[], 2⟩, ⟨[], 5⟩]⟩

/-- C10 (code bug): with cryostat optical-detector counts `[2, 5]` and
the static table populated by a first call with cryostat argument 1,
`OpDetFromCryo(3, 1)` returns `1 * NOpDet(1) + 3 = 8`, whereas the lowest
ID of cryostat 1 is the prefix sum `2`, so the claimed value is `5`;
`OpDetGeoFromOpDet`, whose table is built correctly, throws on 8 and
returns optical detector 3 of cryostat 1 only for 5 — the two lazily
built tables disagree (line 1562 increments by `Cryostat(cid).NOpDet()`
with `cid` the queried cryostat instead of the loop cryostat, against its
own "store the lowest ID for each cryostat" comment). -/
theorem OpDetFromCryo_table_bug :
    OpDetFromCryo gOpDetBug 1 3 1 = Except.ok 8 ∧
    lowestOpDetID gOpDetBug 1 + 3 = 5 ∧
    OpDetGeoFromOpDet gOpDetBug 8 = Except.error "OpID To OpDetCryo error" ∧
    OpDetGeoFromOpDet gOpDetBug 5 = Except.ok (1, 3) := by
  decide

end LArGeo
